import Mathlib

set_option autoImplicit false

/-!
Shallow embedding of `fynesse/assess.py` (function `get_feature_vector`,
lines 104-168) together with the bounding-box geometry it shares with
`fynesse/access.py`.  Python floats are modelled as rationals, pandas
cells as `Option String` (none = null/NaN), the pandas DataFrame as a
column-oriented table, and Python dicts as insertion-ordered association
lists with overwrite-on-existing-key semantics.
-/

namespace Fynesse

/-- A pandas cell as the counting code observes it: a string value or null. -/
abbrev Cell := Option String

/-- Column-oriented model of the DataFrame `pois_df` built at assess.py:156:
a list of (column name, column entries). -/
structure Table where
  cols : List (String × List Cell)
deriving DecidableEq

/-- `key in pois_df.columns` (assess.py:159). -/
def Table.hasCol (t : Table) (k : String) : Bool :=
  t.cols.any (fun c => c.1 == k)

/-- `pois_df[key]` (assess.py:161,163): the entries of the first column
named `k`, or the empty column if there is none. -/
def Table.getCol (t : Table) (k : String) : List Cell :=
  ((t.cols.find? (fun c => c.1 == k)).map Prod.snd).getD []

/-- `(pois_df[key] == value).sum()` (assess.py:161): pandas elementwise
equality is false on null cells, and `.sum()` adds the booleans. -/
def countEq (col : List Cell) (v : String) : Nat :=
  (col.filter (fun c => c == some v)).length

/-- `pois_df[key].notnull().sum()` (assess.py:163). -/
def countNotNull (col : List Cell) : Nat :=
  (col.filter (fun c => c.isSome)).length

/-- One requested (key, value) pair; `none` means "any value of this key". -/
abbrev Feature := String × Option String

/-- The dictionary-key expression `f"{key}:{value}" if value else key` used
at assess.py:146 and assess.py:151.  Python truthiness makes an empty-string
value behave like `None`. -/
def compositeKey (key : String) (value : Option String) : String :=
  match value with
  | some v => if v = "" then key else key ++ ":" ++ v
  | none => key

/-- Python `d[k] = v`: overwrite in place when the key exists, append
otherwise (dicts preserve insertion order). -/
def dictInsert {α : Type} (d : List (String × α)) (k : String) (v : α) :
    List (String × α) :=
  if d.any (fun p => p.1 == k) then
    d.map (fun p => if p.1 == k then (p.1, v) else p)
  else
    d ++ [(k, v)]

/-- A Python dict comprehension over an already-ordered list of
(key, value) pairs. -/
def dictOf {α : Type} (ps : List (String × α)) : List (String × α) :=
  ps.foldl (fun d p => dictInsert d p.1 p.2) []

/-- assess.py:145-148: the `tags` dict sent to `ox.features_from_bbox`.
Note that a pair with a set value contributes the composite key
`key:value` mapped to `True`, not the bare key. -/
def tagsOf (features : List Feature) : List (String × Bool) :=
  dictOf (features.map (fun p => (compositeKey p.1 p.2, true)))

/-- assess.py:150-153: `poi_counts`, the result dict initialised with
zeros for every requested pair. -/
def initCounts (features : List Feature) : List (String × Nat) :=
  dictOf (features.map (fun p => (compositeKey p.1 p.2, 0)))

/-- assess.py:138-144: the bounding box from the center coordinate and the
box size in kilometers, via the 1 degree = 111 km approximation. -/
def bboxOf (latitude longitude box_size_km : ℚ) : ℚ × ℚ × ℚ × ℚ :=
  let box_width := box_size_km / 111
  let box_height := box_size_km / 111
  let north := latitude + box_height / 2
  let south := latitude - box_height / 2
  let west := longitude - box_width / 2
  let east := longitude + box_width / 2
  (west, south, east, north)

/-- Python exceptions the embedded code can raise or observe. -/
inductive PyErr where
  | typeError
  | nameError
  | providerFailure (msg : String)
deriving DecidableEq

/-- The external geodata provider (`ox.features_from_bbox` followed by
`pd.DataFrame`, assess.py:155-156): given a bounding box and a tags dict it
either returns a table or raises. -/
abbrev Provider := (ℚ × ℚ × ℚ × ℚ) → List (String × Bool) → Except PyErr Table

/-- assess.py:158-163 as the loop body would execute on a list of pairs:
for each (key, value), if the table has a column named `key`, overwrite the
entry for the composite key with the value-filtered count (truthy value) or
the non-null count (falsy value). -/
def countStep (pois_df : Table) (poi_counts : List (String × Nat)) (p : Feature) :
    List (String × Nat) :=
  if pois_df.hasCol p.1 then
    match p.2 with
    | some v =>
        if v = "" then dictInsert poi_counts p.1 (countNotNull (pois_df.getCol p.1))
        else dictInsert poi_counts (p.1 ++ ":" ++ v) (countEq (pois_df.getCol p.1) v)
    | none => dictInsert poi_counts p.1 (countNotNull (pois_df.getCol p.1))
  else poi_counts

/-- The counting loop of assess.py:158-163 over a given pair list. -/
def countLoop (pois_df : Table) (pairs : List Feature)
    (poi_counts : List (String × Nat)) : List (String × Nat) :=
  pairs.foldl (countStep pois_df) poi_counts

/-- The `try` block of assess.py:154-163 as written.  The loop header at
line 158 reads `for key, value in poi_types:`, but `poi_types` is bound
nowhere: it is not the parameter (that is `features`), not a local, not a
module-level name of assess.py, and the starred import is of the
configuration module, which per the spec carries no such name.  Evaluating
the loop header therefore raises `NameError` before any iteration runs, so
on provider success the block fails without touching `poi_counts`; on
provider failure the provider's exception propagates to the handler. -/
def tryBlock (provider : Provider) (bbox : ℚ × ℚ × ℚ × ℚ)
    (tags : List (String × Bool)) (_poi_counts : List (String × Nat)) :
    Except PyErr (List (String × Nat)) :=
  match provider bbox tags with
  | .error e => .error e
  | .ok _pois_df => .error .nameError

/-- `get_feature_vector` (assess.py:104-168), faithful to the source.
`features` is its declared default-`None` parameter: with `none` the dict
comprehension at lines 145-148 iterates `None` and raises `TypeError`
before `poi_counts` exists and before the `try` block is entered.  With a
pair list, the bare `except:` at line 165 swallows every exception from the
`try` block (including the `NameError` from the unbound `poi_types`), so
the zero-initialised `poi_counts` is returned. -/
def get_feature_vector (latitude longitude box_size_km : ℚ)
    (features : Option (List Feature)) (provider : Provider) :
    Except PyErr (List (String × Nat)) :=
  let bbox := bboxOf latitude longitude box_size_km
  match features with
  | none => .error .typeError
  | some fs =>
      let tags := tagsOf fs
      let poi_counts := initCounts fs
      match tryBlock provider bbox tags poi_counts with
      | .ok counts => .ok counts
      | .error _e => .ok poi_counts

/-- The `try` block with line 158 reading `features` — the iteration the
docstring (assess.py:117-124) and the module comment at line 134 describe —
instead of the unbound `poi_types`.  Kept to document the divergence. -/
def tryBlockIntended (provider : Provider) (bbox : ℚ × ℚ × ℚ × ℚ)
    (tags : List (String × Bool)) (features : List Feature)
    (poi_counts : List (String × Nat)) : Except PyErr (List (String × Nat)) :=
  match provider bbox tags with
  | .error e => .error e
  | .ok pois_df => .ok (countLoop pois_df features poi_counts)

/-- `get_feature_vector` as its own docstring describes it: identical to
the source except that the counting loop iterates the `features`
parameter. -/
def get_feature_vector_intended (latitude longitude box_size_km : ℚ)
    (features : List Feature) (provider : Provider) : List (String × Nat) :=
  let bbox := bboxOf latitude longitude box_size_km
  let tags := tagsOf features
  let poi_counts := initCounts features
  match tryBlockIntended provider bbox tags features poi_counts with
  | .ok counts => counts
  | .error _e => poi_counts

/-- Every count in the dict is zero. -/
def allZero (d : List (String × Nat)) : Prop := ∀ p ∈ d, p.2 = 0

/-- The provider table of the spec's success scenario: one column
`amenity` with 5 rows, exactly 2 of them equal to `"school"`. -/
def schoolTable : Table :=
  ⟨[("amenity", [some "school", some "school", some "restaurant",
                 some "cafe", some "bank"])]⟩

/-! ### Dictionary lemmas -/

theorem keys_map_overwrite {α : Type} (d : List (String × α)) (k : String) (v : α) :
    (d.map (fun p => if p.1 == k then (p.1, v) else p)).map Prod.fst =
      d.map Prod.fst := by
  induction d with
  | nil => rfl
  | cons a d ih =>
      simp only [List.map_cons, ih, List.cons.injEq, and_true]
      by_cases h : a.1 == k <;> simp [h]

theorem mem_keys_dictInsert {α : Type} (d : List (String × α)) (k x : String) (v : α) :
    x ∈ (dictInsert d k v).map Prod.fst ↔ x ∈ d.map Prod.fst ∨ x = k := by
  unfold dictInsert
  by_cases h : d.any (fun p => p.1 == k)
  · rw [if_pos h, keys_map_overwrite]
    constructor
    · exact Or.inl
    · rintro (hx | rfl)
      · exact hx
      · rcases List.any_eq_true.mp h with ⟨p, hp, hpk⟩
        exact List.mem_map.mpr ⟨p, hp, by simpa using hpk⟩
  · rw [if_neg h]
    simp

theorem mem_keys_dictFoldl {α : Type} (ps : List (String × α)) (d : List (String × α))
    (x : String) :
    x ∈ ((ps.foldl (fun d p => dictInsert d p.1 p.2) d).map Prod.fst) ↔
      x ∈ d.map Prod.fst ∨ x ∈ ps.map Prod.fst := by
  induction ps generalizing d with
  | nil => simp
  | cons p ps ih =>
      simp only [List.foldl_cons, ih, mem_keys_dictInsert, List.map_cons, List.mem_cons]
      tauto

theorem mem_keys_dictOf {α : Type} (ps : List (String × α)) (x : String) :
    x ∈ (dictOf ps).map Prod.fst ↔ x ∈ ps.map Prod.fst := by
  unfold dictOf
  rw [mem_keys_dictFoldl]
  simp

theorem dictInsert_snd {α : Type} (P : α → Prop) (d : List (String × α)) (k : String)
    (v : α) (hd : ∀ p ∈ d, P p.2) (hv : P v) : ∀ p ∈ dictInsert d k v, P p.2 := by
  intro p hp
  unfold dictInsert at hp
  by_cases h : d.any (fun q => q.1 == k)
  · rw [if_pos h] at hp
    rcases List.mem_map.mp hp with ⟨q, hq, rfl⟩
    by_cases hqk : q.1 == k
    · simpa [hqk] using hv
    · simpa [hqk] using hd q hq
  · rw [if_neg h] at hp
    rcases List.mem_append.mp hp with h1 | h1
    · exact hd p h1
    · simp only [List.mem_singleton] at h1
      subst h1
      exact hv

theorem dictFoldl_snd {α : Type} (P : α → Prop) (ps : List (String × α))
    (d : List (String × α)) (hd : ∀ p ∈ d, P p.2) (hp : ∀ p ∈ ps, P p.2) :
    ∀ p ∈ ps.foldl (fun d q => dictInsert d q.1 q.2) d, P p.2 := by
  induction ps generalizing d with
  | nil => exact hd
  | cons q ps ih =>
      intro p hpmem
      refine ih (dictInsert d q.1 q.2)
        (dictInsert_snd P d q.1 q.2 hd (hp q (by simp))) ?_ p hpmem
      intro r hr
      exact hp r (by simp [hr])

theorem dictOf_snd {α : Type} (P : α → Prop) (ps : List (String × α))
    (hp : ∀ p ∈ ps, P p.2) : ∀ p ∈ dictOf ps, P p.2 :=
  dictFoldl_snd P ps [] (by simp) hp

theorem mem_of_key_const {α : Type} (d : List (String × α)) (b : α) (x : String)
    (hd : ∀ p ∈ d, p.2 = b) (hx : x ∈ d.map Prod.fst) : (x, b) ∈ d := by
  rcases List.mem_map.mp hx with ⟨p, hp, rfl⟩
  obtain ⟨a, c⟩ := p
  have hc := hd (a, c) hp
  simp only at hc
  subst hc
  exact hp

theorem lookup_of_allZero (d : List (String × Nat)) (hd : allZero d) (k : String) :
    (List.lookup k d).getD 0 = 0 := by
  induction d with
  | nil => rfl
  | cons a d ih =>
      obtain ⟨a1, a2⟩ := a
      have ha : a2 = 0 := hd (a1, a2) (by simp)
      have hd2 : allZero d := fun p hp => hd p (by simp [hp])
      by_cases h : k == a1
      · simp [List.lookup, h, ha]
      · simp [List.lookup, h, ih hd2]

/-! ### Basic facts about the embedded function -/

theorem initCounts_allZero (fs : List Feature) : allZero (initCounts fs) := by
  unfold allZero initCounts
  refine dictOf_snd (fun n => n = 0) _ ?_
  intro p hp
  rcases List.mem_map.mp hp with ⟨q, _, rfl⟩
  rfl

theorem tagsOf_snd_true (fs : List Feature) : ∀ p ∈ tagsOf fs, p.2 = true := by
  unfold tagsOf
  refine dictOf_snd (fun b => b = true) _ ?_
  intro p hp
  rcases List.mem_map.mp hp with ⟨q, _, rfl⟩
  rfl

theorem get_feature_vector_some (latitude longitude box_size_km : ℚ)
    (fs : List Feature) (provider : Provider) :
    get_feature_vector latitude longitude box_size_km (some fs) provider =
      .ok (initCounts fs) := by
  cases h : provider (bboxOf latitude longitude box_size_km) (tagsOf fs) with
  | error e => simp [get_feature_vector, tryBlock, h]
  | ok t => simp [get_feature_vector, tryBlock, h]

theorem tags_key_mem (fs : List Feature) (k : String) (v : Option String)
    (h : (k, v) ∈ fs) : compositeKey k v ∈ (tagsOf fs).map Prod.fst := by
  unfold tagsOf
  rw [mem_keys_dictOf, List.map_map]
  exact List.mem_map.mpr ⟨(k, v), h, rfl⟩

/-! ### Claim theorems -/

/-- C1: the spec's success scenario — request
`[("amenity", None), ("amenity", "school")]` with a provider returning 5
rows whose `amenity` column holds 2 `"school"` entries — is claimed to
yield counts 5 and 2.  The code instead returns the all-zero mapping: the
counting loop at assess.py:158 iterates the unbound name `poi_types`, so
it raises `NameError` which the bare `except:` swallows.  This theorem
evaluates the faithful embedding at the claim's input. -/
theorem scenario_success_all_zeros :
    get_feature_vector 0 0 2 (some [("amenity", none), ("amenity", some "school")])
      (fun _ _ => .ok schoolTable) =
      .ok [("amenity", 0), ("amenity:school", 0)] := rfl

/-- The variant with the counting loop iterating `features` — the behavior
the docstring and the spec describe — does produce the scenario's expected
counts, locating the divergence in the single name at assess.py:158. -/
theorem scenario_intended_matches_spec :
    get_feature_vector_intended 0 0 2 [("amenity", none), ("amenity", some "school")]
      (fun _ _ => .ok schoolTable) =
      [("amenity", 5), ("amenity:school", 2)] := by decide

/-- C2: for every feature-request sequence and every provider behavior,
the returned mapping exists, and its key set is exactly the set of
composite keys derived from the request; the empty request yields the
empty mapping. -/
theorem feature_vector_key_set (latitude longitude box_size_km : ℚ)
    (fs : List Feature) (provider : Provider) :
    get_feature_vector latitude longitude box_size_km (some fs) provider =
        .ok (initCounts fs) ∧
      (∀ x, x ∈ (initCounts fs).map Prod.fst ↔
        x ∈ fs.map (fun p => compositeKey p.1 p.2)) ∧
      initCounts ([] : List Feature) = [] := by
  refine ⟨get_feature_vector_some _ _ _ _ _, ?_, rfl⟩
  intro x
  unfold initCounts
  rw [mem_keys_dictOf, List.map_map]
  exact Iff.rfl

theorem feature_vector_key_set_witness :
    "amenity" ∈ (initCounts [("amenity", (none : Option String))]).map Prod.fst ↔
      "amenity" ∈ [("amenity", (none : Option String))].map
        (fun p => compositeKey p.1 p.2) :=
  (feature_vector_key_set 0 0 2 [("amenity", none)] (fun _ _ => .ok ⟨[]⟩)).2.1 "amenity"

/-- Counterexample to C3 as stated: the query-tags structure built at
assess.py:145-148 does encode the values of value-set pairs — it maps the
composite string `key:value` to `True` — so it is not a function of the
requested keys alone: changing only the value of a value-set pair changes
the tags sent to the provider. -/
theorem tags_encode_value_counterexample :
    tagsOf [("shop", some "bakery")] = [("shop:bakery", true)] ∧
    tagsOf [("shop", some "bakery")] ≠ tagsOf [("shop", some "candles")] := by decide

/-- C3 (amended): the query-tags structure maps, for each requested pair,
the composite key — the key itself when the value is None (or empty), and
`key:value` when the value is set — to True; value-set pairs are therefore
encoded into the tags sent to the provider, not omitted from them. -/
theorem tags_composite (fs : List Feature) (k : String) (v : Option String)
    (h : (k, v) ∈ fs) : (compositeKey k v, true) ∈ tagsOf fs :=
  mem_of_key_const _ _ _ (tagsOf_snd_true fs) (tags_key_mem fs k v h)

theorem tags_composite_witness :
    (compositeKey "shop" (some "bakery"), true) ∈ tagsOf [("shop", some "bakery")] :=
  tags_composite [("shop", some "bakery")] "shop" (some "bakery") (by decide)

/-- C4: when the provider raises, `get_feature_vector` returns the
all-zero mapping initialised from the request instead of propagating the
exception (the bare `except:` at assess.py:165). -/
theorem provider_failure_all_zeros (latitude longitude box_size_km : ℚ)
    (fs : List Feature) (provider : Provider) (e : PyErr)
    (h : provider (bboxOf latitude longitude box_size_km) (tagsOf fs) = .error e) :
    get_feature_vector latitude longitude box_size_km (some fs) provider =
        .ok (initCounts fs) ∧ allZero (initCounts fs) :=
  ⟨get_feature_vector_some _ _ _ _ _, initCounts_allZero fs⟩

theorem provider_failure_all_zeros_witness :
    get_feature_vector 0 0 2 (some [("amenity", none)])
      (fun _ _ => .error (.providerFailure "network down")) = .ok [("amenity", 0)] :=
  (provider_failure_all_zeros 0 0 2 [("amenity", none)]
    (fun _ _ => .error (.providerFailure "network down"))
    (.providerFailure "network down") rfl).1

/-- C5: the spec's missing-column scenario — request
`[("shop", "bakery")]` against a provider whose table has no `shop`
column — returns `{"shop:bakery": 0}` rather than an error. -/
theorem missing_column_zero :
    get_feature_vector 0 0 2 (some [("shop", some "bakery")])
      (fun _ _ => .ok ⟨[("amenity", [some "restaurant", none])]⟩) =
      .ok [("shop:bakery", 0)] := rfl

/-- C6: the returned mapping is never a partial mix of counted and
uncounted entries: for every request and provider behavior it is either
the all-zero mapping or a full pass of the counting loop.  In the shipped
code the left disjunct always holds, because the loop header's `NameError`
aborts counting before any entry is written. -/
theorem no_partial_mapping (latitude longitude box_size_km : ℚ) (fs : List Feature)
    (provider : Provider) :
    ∃ counts, get_feature_vector latitude longitude box_size_km (some fs) provider =
        .ok counts ∧
      (allZero counts ∨
        ∃ t, provider (bboxOf latitude longitude box_size_km) (tagsOf fs) = .ok t ∧
          counts = countLoop t fs (initCounts fs)) :=
  ⟨initCounts fs, get_feature_vector_some _ _ _ _ _, Or.inl (initCounts_allZero fs)⟩

/-- C7: when both `(k, v)` with `v` set and `(k, None)` are requested, the
count returned under the composite key `k:v` never exceeds the count
returned under `k`. -/
theorem value_count_le_key_count (latitude longitude box_size_km : ℚ)
    (fs : List Feature) (provider : Provider) (k v : String)
    (counts : List (String × Nat))
    (h1 : (k, some v) ∈ fs) (h2 : (k, none) ∈ fs)
    (h : get_feature_vector latitude longitude box_size_km (some fs) provider =
      .ok counts) :
    (List.lookup (compositeKey k (some v)) counts).getD 0 ≤
      (List.lookup k counts).getD 0 := by
  have h0 := get_feature_vector_some latitude longitude box_size_km fs provider
  rw [h] at h0
  have hc : counts = initCounts fs := Except.ok.inj h0
  rw [hc]
  rw [lookup_of_allZero (initCounts fs) (initCounts_allZero fs)]
  rw [lookup_of_allZero (initCounts fs) (initCounts_allZero fs)]

theorem value_count_le_key_count_witness :
    (List.lookup (compositeKey "amenity" (some "school"))
        [("amenity", 0), ("amenity:school", 0)]).getD 0 ≤
      (List.lookup "amenity" [("amenity", 0), ("amenity:school", 0)]).getD 0 :=
  value_count_le_key_count 0 0 2 [("amenity", none), ("amenity", some "school")]
    (fun _ _ => .ok schoolTable) "amenity" "school"
    [("amenity", 0), ("amenity:school", 0)] (by decide) (by decide) rfl

/-- C8: the extractor is deterministic — two calls with identical center,
box size and request, against providers that answer identically (returning
the same table or raising the same exception), return equal results. -/
theorem extractor_deterministic (latitude longitude box_size_km : ℚ)
    (features : Option (List Feature)) (p q : Provider)
    (h : ∀ b t, p b t = q b t) :
    get_feature_vector latitude longitude box_size_km features p =
      get_feature_vector latitude longitude box_size_km features q := by
  cases features with
  | none => rfl
  | some fs => rw [get_feature_vector_some, get_feature_vector_some]

theorem extractor_deterministic_witness :
    get_feature_vector 1 2 3 (some [("tourism", some "hotel")])
        (fun _ _ => .ok ⟨[]⟩) =
      get_feature_vector 1 2 3 (some [("tourism", some "hotel")])
        (fun _ _ => .ok ⟨[]⟩) :=
  extractor_deterministic 1 2 3 (some [("tourism", some "hotel")])
    (fun _ _ => .ok ⟨[]⟩) (fun _ _ => .ok ⟨[]⟩) (fun _ _ => rfl)

/-- C9: the bounding box handed to the provider is the degree-space square
(west, south, east, north) with half-extent `box_size_km / 111 / 2` around
the center in both axes (assess.py:138-144). -/
theorem bbox_degree_square (latitude longitude box_size_km : ℚ) :
    bboxOf latitude longitude box_size_km =
      (longitude - box_size_km / 111 / 2, latitude - box_size_km / 111 / 2,
        longitude + box_size_km / 111 / 2, latitude + box_size_km / 111 / 2) := rfl

/-- C10: calling `get_feature_vector` with its declared default
`features=None` raises `TypeError` while the dict comprehension at
assess.py:145-148 iterates `None` — before the guarded `try` block, so no
mapping is returned and the provider is never consulted. -/
theorem default_features_typeerror (latitude longitude box_size_km : ℚ)
    (provider : Provider) :
    get_feature_vector latitude longitude box_size_km none provider =
      .error .typeError := rfl

end Fynesse
